import Mathlib

/-!
Verification of the feeder-congestion feature pipeline
(`merge_pipeline.py`, `data_wrangling.py`, `load_data_loader.py`).

Tables are shallowly embedded as lists of structures (one structure field
per dataframe column that the pipeline reads or writes; columns that no
stage touches are omitted).  Energy values are rationals, absent cells
(`NaN`) are `Option`, and calendar dates are year/month/day triples since
the code only ever reads `.dt.month`.

pandas operations are modelled as follows:
  * `drop_duplicates` / `unique`  -> `firstDedup` (keep first occurrence);
  * `groupby(...).agg`            -> `groupByKey` (group rows by a key);
    pandas drops rows with a null group key, which is made explicit with
    a `filterMap` before grouping;
  * `merge(..., how="left")`      -> a `flatMap` producing one row per
    match, or a single row with absent right-hand columns when there is
    no match; null keys never match;
  * `pivot_table(index, columns, values, aggfunc="sum", fill_value=0.0)`
    -> one row per distinct index key and one cell per distinct column
    value, each cell the sum of the matching values (0 when none).
pandas sorts group keys and pivot columns; every property stated below is
insensitive to row and column order, so first-occurrence order is used.
-/

/-- Helper for `firstDedup`: drop elements already seen, accumulating the
seen set. -/
def firstDedupAux {α : Type} [DecidableEq α] (seen : List α) :
    List α → List α
  | [] => []
  | a :: l =>
    if a ∈ seen then firstDedupAux seen l
    else a :: firstDedupAux (a :: seen) l

/-- Keep the first occurrence of every element, dropping later duplicates:
the semantics of `pandas.unique` and of `drop_duplicates` (default
`keep="first"`). -/
def firstDedup {α : Type} [DecidableEq α] (l : List α) : List α :=
  firstDedupAux [] l

/-- Group a list by a key, keys in first-occurrence order, each group the
sublist of rows carrying that key: the semantics of `pandas.groupby` on
non-null keys (key order aside, which no stated property depends on). -/
def groupByKey {α κ : Type} [DecidableEq κ] (key : α → κ) (l : List α) :
    List (κ × List α) :=
  (firstDedup (l.map key)).map (fun k => (k, l.filter (fun a => key a = k)))

/-- Arithmetic mean of a list of rationals (pandas `mean` on a non-empty
group). -/
def listMean (l : List ℚ) : ℚ := l.sum / l.length

/-!
Geometry model.  The pipeline uses exactly two geometric operations:
taking a centroid (`.geometry.centroid`) and testing point-in-polygon
containment (`sjoin` with `predicate="within"`).  A geometry is therefore
abstracted to the finite set of integer-grid points it contains together
with its centroid; coordinate reference systems are numeric codes, and
reprojection (`to_crs` / pyproj) is an arbitrary geometry transformation
supplied as a parameter `Reproj`, applied when the source and target
codes may differ.
-/

structure Pt where
  x : Int
  y : Int
  deriving DecidableEq

structure Geom where
  pts : List Pt
  ctr : Pt
  deriving DecidableEq

/-- `shapely` point-in-polygon test used by `sjoin(..., predicate="within")`,
over the finite-point abstraction of a polygon. -/
def within (p : Pt) (g : Geom) : Bool := g.pts.contains p

/-- Abstract reprojection family: source CRS code, target CRS code,
geometry to transform. -/
def Reproj : Type := Nat → Nat → Geom → Geom

/-- A GeoDataFrame: a CRS code plus its rows. -/
structure GeoLayer (ρ : Type) where
  crs : Nat
  rows : List ρ

/-- `gpd.sjoin(left, right, how="left", predicate="within")` where the
left layer's active geometry is a point (a centroid column): one output
row per (left row, containing right polygon), and a single row with
absent right-hand columns for a left row contained in no polygon.
geopandas only warns when the two layers' CRS differ; the mismatch case
is modelled as an error so that any join actually evaluated in
mismatched systems is observable (the pipeline never reaches it, having
reprojected first). -/
def sjoin_left {α β γ : Type} (lcrs rcrs : Nat) (left : List α)
    (right : List β) (lpt : α → Pt) (rpoly : β → Geom)
    (mk : α → Option β → γ) : Except String (List γ) :=
  if lcrs = rcrs then
    .ok (left.flatMap (fun a =>
      let ms := right.filter (fun b => within (lpt a) (rpoly b))
      if ms.isEmpty then [mk a none] else ms.map (fun b => mk a (some b))))
  else .error "CRS mismatch between left and right layers"

/-!
Stage 1: `map_climate_zones` (`merge_pipeline.py` lines 43-59, identical
table in `data_wrangling.py` lines 28-41).
-/

/-- A CEC climate-zone polygon before labelling: the integer `BZone`
column (already cast by `astype(int)`) and the polygon geometry. -/
structure CZRawRow where
  bzone : Int
  geom : Geom
  deriving DecidableEq

/-- A climate-zone polygon after labelling: `cz_groups` is absent for
codes outside the lookup table. -/
structure CZRow where
  bzone : Int
  cz_groups : Option String
  geom : Geom
  deriving DecidableEq

/-- The `cz_groups` dict literal of `map_climate_zones`. -/
def cz_groups_table : List (Int × String) :=
  [(1, "Coastal"), (3, "Coastal"), (5, "Coastal"),
   (2, "Inland"), (4, "Inland"),
   (11, "North Central Valley"), (12, "North Central Valley"),
   (13, "South Central Valley")]

/-- `Series.map(cz_groups)`: dictionary lookup, `NaN` (here `none`) for a
code absent from the dict. -/
def cz_group_of (z : Int) : Option String :=
  (cz_groups_table.find? (fun p => p.1 = z)).map Prod.snd

/-- `map_climate_zones`: adds the `cz_groups` column to the climate-zone
layer by dictionary lookup on `BZone`. -/
def map_climate_zones (climate_zones : GeoLayer CZRawRow) : GeoLayer CZRow :=
  ⟨climate_zones.crs,
   climate_zones.rows.map (fun r => ⟨r.bzone, cz_group_of r.bzone, r.geom⟩)⟩

/-!
Stage 2: `process_zip_climate_mapping` (`merge_pipeline.py` lines 62-82;
the `data_wrangling.py` version lines 43-60 differs only in joining the
whole climate frame instead of its `[["cz_groups", "geometry"]]`
projection, which changes no column this model carries).
-/

/-- A ZIP polygon row: `ZIP_CODE` and the polygon geometry (descriptive
columns such as `PO_NAME` are never read by the pipeline and are
omitted). -/
structure ZipRow where
  zip : Nat
  geom : Geom
  deriving DecidableEq

/-- A row of the ZIP-to-climate-group table: the ZIP code, the original
ZIP polygon geometry (still carried as the plain `geometry` column after
`set_geometry("centroid")`), and the joined `cz_groups` value. -/
structure ZipClimateRow where
  zip : Nat
  geom : Geom
  cz_groups : Option String
  deriving DecidableEq

/-- `to_crs` on the ZIP layer. -/
def to_crs_zips (reproj : Reproj) (target : Nat) (l : GeoLayer ZipRow) :
    GeoLayer ZipRow :=
  ⟨target, l.rows.map (fun r => ⟨r.zip, reproj l.crs target r.geom⟩)⟩

/-- `process_zip_climate_mapping`: reproject the ZIP layer to the climate
layer's CRS, take centroids, spatially join centroid-within-polygon
against the climate polygons, and drop rows whose `cz_groups` is absent.
The result keeps the left layer's CRS. -/
def process_zip_climate_mapping (reproj : Reproj) (zips : GeoLayer ZipRow)
    (climate_zones : GeoLayer CZRow) :
    Except String (GeoLayer ZipClimateRow) :=
  let zips2 := to_crs_zips reproj climate_zones.crs zips
  (sjoin_left zips2.crs climate_zones.crs zips2.rows climate_zones.rows
      (fun z => z.geom.ctr) (fun c => c.geom)
      (fun z c => (⟨z.zip, z.geom, c.bind (fun cr => cr.cz_groups)⟩ :
        ZipClimateRow))).map
    (fun rows => ⟨zips2.crs, rows.filter (fun r => r.cz_groups.isSome)⟩)

/-!
Stage 3: `zip_gp_lookup` (`merge_pipeline.py` lines 101-133; the same
grouping, merge and explode appear in `data_wrangling.py` as
`group_by_climate_zone`, `merge_datasets` and `expand_load_shapes`).
-/

/-- A load-profile characteristics record (`res_characteristics.csv` /
`nonres_characteristics.csv` combined by `load_calmac_characteristics`):
the profile id `gp` and its segment climate-zone label `seg_cz` (the
added `type` tag is never read downstream and is omitted). -/
structure GpRow where
  gp : String
  seg_cz : String
  deriving DecidableEq

/-- A row of the ZIP-to-profile lookup produced by `zip_gp_lookup`:
`gp` is absent when the ZIP's group matched no catalog group or the
merge found no match. -/
structure ZipGpRow where
  zip : Nat
  cz_groups : Option String
  gp : Option String
  deriving DecidableEq

/-- Intermediate row of `zip_gp_lookup` before the explode: the merged
`gp_list` column (`NaN` when the left merge found no matching
`seg_cz`). -/
structure ZipGpListRow where
  zip : Nat
  cz_groups : Option String
  gp_list : Option (List String)
  deriving DecidableEq

/-- `zip_gp_lookup`: group catalog rows by `seg_cz` into `gp` lists,
deduplicate the (ZIP, group) projection of the ZIP-climate table, left
merge on group label, then explode the list column to one row per
ZIP-profile pair (`explode` emits a single row with an absent value for
an absent or empty list). -/
def zip_gp_lookup (zips_climate : List ZipClimateRow)
    (gps_all : List GpRow) : List ZipGpRow :=
  let gps_by_zone := (groupByKey (fun r => r.seg_cz) gps_all).map
    (fun g => (g.1, g.2.map (fun r => r.gp)))
  let zips_small := firstDedup (zips_climate.map (fun r => (r.zip, r.cz_groups)))
  let zip_gp0 : List ZipGpListRow := zips_small.flatMap (fun zs =>
    let ms := gps_by_zone.filter (fun gz => some gz.1 = zs.2)
    if ms.isEmpty then [⟨zs.1, zs.2, none⟩]
    else ms.map (fun gz => ⟨zs.1, zs.2, some gz.2⟩))
  zip_gp0.flatMap (fun r =>
    match r.gp_list with
    | none => [⟨r.zip, r.cz_groups, none⟩]
    | some [] => [⟨r.zip, r.cz_groups, none⟩]
    | some (g :: gs) => (g :: gs).map (fun g2 => ⟨r.zip, r.cz_groups, some g2⟩))

/-!
Stage 4: `aggregate_load_shapes` (`merge_pipeline.py` lines 136-160; the
same filter-and-aggregate appears inside
`data_wrangling.load_and_merge_load_data`, lines 110-135).  The CSV read
performed by `load_calmac_load_shapes` is the external collaborator; the
loaded table is the argument here.
-/

/-- A calendar date; the code parses it with `pd.to_datetime` and reads
only `.dt.month`. -/
structure CalDate where
  y : Nat
  m : Nat
  d : Nat
  deriving DecidableEq

/-- A raw hourly load-shape observation (`Res_GP_Elec_2024.csv`). -/
structure LoadObs where
  gp : String
  date : CalDate
  hour : Nat
  kwh : ℚ
  deriving DecidableEq

/-- A row of the aggregated month-hour load table. -/
structure LoadMonthHourRow where
  gp : String
  month : Nat
  hour : Nat
  kwh : ℚ
  deriving DecidableEq

/-- `aggregate_load_shapes`: keep observations whose date's month is in
May-October, then take the mean kWh per (gp, month, hour) group. -/
def aggregate_load_shapes (load_data : List LoadObs) : List LoadMonthHourRow :=
  let filtered := load_data.filter (fun o => [5, 6, 7, 8, 9, 10].contains o.date.m)
  (groupByKey (fun o => (o.gp, o.date.m, o.hour)) filtered).map
    (fun g => ⟨g.1.1, g.1.2.1, g.1.2.2, listMean (g.2.map (fun o => o.kwh))⟩)

/-!
Stage 5: `feeder_zips_map` (`merge_pipeline.py` lines 164-185).  The
function body reads the module-level `zips_climate` frame rather than its
`zips` parameter, both for the target CRS and as the right-hand join
layer; the layer actually used is the explicit `zips_climate` argument
here.  `zips_climate[["ZIP_CODE", "geometry"]]` selects the original ZIP
polygon column, so feeder centroids are tested against ZIP polygons.
-/

/-- A feeder row: `feeder_id` and the feeder's (line) geometry. -/
structure FeederRow where
  feeder_id : String
  geom : Geom
  deriving DecidableEq

/-- A row of the feeder-to-ZIP table: `zip` is absent for a feeder whose
centroid lies in no ZIP polygon (`how="left"` keeps it). -/
structure FeederZipRow where
  feeder_id : String
  zip : Option Nat
  deriving DecidableEq

/-- `to_crs` on the feeder layer. -/
def to_crs_feeders (reproj : Reproj) (target : Nat) (l : GeoLayer FeederRow) :
    GeoLayer FeederRow :=
  ⟨target, l.rows.map (fun r => ⟨r.feeder_id, reproj l.crs target r.geom⟩)⟩

/-- `feeder_zips_map`: reproject feeders to the ZIP-climate layer's CRS,
take centroids, spatially join centroid-within-ZIP-polygon with
`how="left"`, project to `(feeder_id, ZIP_CODE)` and drop duplicate
pairs. -/
def feeder_zips_map (reproj : Reproj) (feeders : GeoLayer FeederRow)
    (zips_climate : GeoLayer ZipClimateRow) :
    Except String (List FeederZipRow) :=
  let feeders2 := to_crs_feeders reproj zips_climate.crs feeders
  (sjoin_left feeders2.crs zips_climate.crs feeders2.rows zips_climate.rows
      (fun f => f.geom.ctr) (fun z => z.geom)
      (fun f z => (⟨f.feeder_id, z.map (fun zr => zr.zip)⟩ : FeederZipRow))).map
    (fun rows => firstDedup rows)

/-!
Stage 6: `build_feeder_load_features`.  `merge_pipeline.py` defines this
function twice at module level: once at lines 188-246 and again at lines
250-310; the second definition shadows the first.  Both bodies are
transcribed below, the second (operative) one under the source name.
-/

/-- Intermediate row after `zip_gp_sub.merge(load_month_hour, on="gp",
how="left")`: month, hour and kwh are absent on a merge miss. -/
structure ZipGpMonthHourRow where
  zip : Nat
  cz_groups : Option String
  gp : Option String
  month : Option Nat
  hour : Option Nat
  kwh : Option ℚ
  deriving DecidableEq

/-- Intermediate row after the further `merge(feeder_zip_map,
on="ZIP_CODE", how="left")`. -/
structure ZgmhFeederRow where
  zip : Nat
  cz_groups : Option String
  gp : Option String
  month : Option Nat
  hour : Option Nat
  kwh : Option ℚ
  feeder_id : Option String
  deriving DecidableEq

/-- A row of the feeder-gp-month-hour aggregate (all group keys non-null,
since pandas `groupby` drops rows with a null key). -/
structure FgmhRow where
  feeder_id : String
  month : Nat
  hour : Nat
  gp : String
  kwh : ℚ
  deriving DecidableEq

/-- A row of the final wide feature matrix: the index columns restored by
`reset_index`, plus one named cell per pivoted profile column. -/
structure FeederWideRow where
  feeder_id : String
  month : Nat
  hour : Nat
  cells : List (String × ℚ)
  deriving DecidableEq

/-- The final wide feature matrix: its column labels in order, and its
rows. -/
structure FeederWide where
  cols : List String
  rows : List FeederWideRow
  deriving DecidableEq

/-- Column renaming applied after the pivot: a string column label `c`
becomes `"kwh_" ++ c` unless it is one of the index labels. -/
def kwh_col (c : String) : String :=
  if c = "feeder_id" ∨ c = "month" ∨ c = "hour" then c else "kwh_" ++ c

/-- The operative `build_feeder_load_features` (`merge_pipeline.py` lines
250-310): restrict `zip_gp` to ZIPs present in `feeder_zip_map`, left
merge the aggregated load table on `gp`, left merge `feeder_zip_map` on
`ZIP_CODE`, group to (feeder, month, hour, gp) summing kWh (rows with a
null group key being dropped by pandas, and a null kWh contributing 0 to
a sum), pivot gp to columns with `aggfunc="sum"` and `fill_value=0.0`,
and rename the profile columns. -/
def build_feeder_load_features (zip_gp : List ZipGpRow)
    (load_month_hour : List LoadMonthHourRow)
    (feeder_zip_map : List FeederZipRow) : FeederWide :=
  let zips_for_feeders := firstDedup (feeder_zip_map.map (fun f => f.zip))
  let zip_gp_sub := zip_gp.filter (fun r => zips_for_feeders.contains (some r.zip))
  let zip_gp_month_hour : List ZipGpMonthHourRow := zip_gp_sub.flatMap (fun r =>
    let ms := load_month_hour.filter (fun l => r.gp = some l.gp)
    if ms.isEmpty then [⟨r.zip, r.cz_groups, r.gp, none, none, none⟩]
    else ms.map (fun l => ⟨r.zip, r.cz_groups, r.gp, some l.month, some l.hour, some l.kwh⟩))
  let with_feeder : List ZgmhFeederRow := zip_gp_month_hour.flatMap (fun r =>
    let ms := feeder_zip_map.filter (fun f => f.zip = some r.zip)
    if ms.isEmpty then [⟨r.zip, r.cz_groups, r.gp, r.month, r.hour, r.kwh, none⟩]
    else ms.map (fun f => ⟨r.zip, r.cz_groups, r.gp, r.month, r.hour, r.kwh, some f.feeder_id⟩))
  let group_in : List FgmhRow := with_feeder.filterMap (fun r =>
    match r.feeder_id, r.month, r.hour, r.gp with
    | some f, some m, some h, some g => some ⟨f, m, h, g, r.kwh.getD 0⟩
    | _, _, _, _ => none)
  let feeder_gp_month_hour : List FgmhRow :=
    (groupByKey (fun r : FgmhRow => (r.feeder_id, r.month, r.hour, r.gp)) group_in).map
      (fun g => ⟨g.1.1, g.1.2.1, g.1.2.2.1, g.1.2.2.2, (g.2.map (fun r => r.kwh)).sum⟩)
  let cols := firstDedup (feeder_gp_month_hour.map (fun r => r.gp))
  let keys := firstDedup (feeder_gp_month_hour.map (fun r => (r.feeder_id, r.month, r.hour)))
  let pre : List FeederWideRow := keys.map (fun k =>
    ⟨k.1, k.2.1, k.2.2, cols.map (fun g => (g,
      ((feeder_gp_month_hour.filter (fun r =>
        r.feeder_id = k.1 ∧ r.month = k.2.1 ∧ r.hour = k.2.2 ∧ r.gp = g)).map
        (fun r => r.kwh)).sum))⟩)
  ⟨["feeder_id", "month", "hour"] ++ cols.map kwh_col,
   pre.map (fun r => ⟨r.feeder_id, r.month, r.hour,
     r.cells.map (fun cv => (kwh_col cv.1, cv.2))⟩)⟩

/-- The shadowed first `build_feeder_load_features` (`merge_pipeline.py`
lines 188-246).  Its body differs from the second definition only in
comments and signature line breaks; it is transcribed independently so
the two can be compared. -/
def build_feeder_load_features_first (zip_gp : List ZipGpRow)
    (load_month_hour : List LoadMonthHourRow)
    (feeder_zip_map : List FeederZipRow) : FeederWide :=
  let zips_for_feeders := firstDedup (feeder_zip_map.map (fun f => f.zip))
  let zip_gp_sub := zip_gp.filter (fun r => zips_for_feeders.contains (some r.zip))
  let zip_gp_month_hour : List ZipGpMonthHourRow := zip_gp_sub.flatMap (fun r =>
    let ms := load_month_hour.filter (fun l => r.gp = some l.gp)
    if ms.isEmpty then [⟨r.zip, r.cz_groups, r.gp, none, none, none⟩]
    else ms.map (fun l => ⟨r.zip, r.cz_groups, r.gp, some l.month, some l.hour, some l.kwh⟩))
  let with_feeder : List ZgmhFeederRow := zip_gp_month_hour.flatMap (fun r =>
    let ms := feeder_zip_map.filter (fun f => f.zip = some r.zip)
    if ms.isEmpty then [⟨r.zip, r.cz_groups, r.gp, r.month, r.hour, r.kwh, none⟩]
    else ms.map (fun f => ⟨r.zip, r.cz_groups, r.gp, r.month, r.hour, r.kwh, some f.feeder_id⟩))
  let group_in : List FgmhRow := with_feeder.filterMap (fun r =>
    match r.feeder_id, r.month, r.hour, r.gp with
    | some f, some m, some h, some g => some ⟨f, m, h, g, r.kwh.getD 0⟩
    | _, _, _, _ => none)
  let feeder_gp_month_hour : List FgmhRow :=
    (groupByKey (fun r : FgmhRow => (r.feeder_id, r.month, r.hour, r.gp)) group_in).map
      (fun g => ⟨g.1.1, g.1.2.1, g.1.2.2.1, g.1.2.2.2, (g.2.map (fun r => r.kwh)).sum⟩)
  let cols := firstDedup (feeder_gp_month_hour.map (fun r => r.gp))
  let keys := firstDedup (feeder_gp_month_hour.map (fun r => (r.feeder_id, r.month, r.hour)))
  let pre : List FeederWideRow := keys.map (fun k =>
    ⟨k.1, k.2.1, k.2.2, cols.map (fun g => (g,
      ((feeder_gp_month_hour.filter (fun r =>
        r.feeder_id = k.1 ∧ r.month = k.2.1 ∧ r.hour = k.2.2 ∧ r.gp = g)).map
        (fun r => r.kwh)).sum))⟩)
  ⟨["feeder_id", "month", "hour"] ++ cols.map kwh_col,
   pre.map (fun r => ⟨r.feeder_id, r.month, r.hour,
     r.cells.map (fun cv => (kwh_col cv.1, cv.2))⟩)⟩

/-!
Derived characterizations.  The following definitions restate a stage's
output as a single comprehension over its inputs; the theorems below
prove each one equal to the corresponding staged definition, and the
claim-level properties are read off the characterization.
-/

/-- One row per (reprojected ZIP row, containing climate polygon whose
group is defined): the shape `process_zip_climate_mapping` is proved to
produce. -/
def zip_climate_join (reproj : Reproj) (zips : GeoLayer ZipRow)
    (climate_zones : GeoLayer CZRow) : List ZipClimateRow :=
  (to_crs_zips reproj climate_zones.crs zips).rows.flatMap (fun z =>
    (climate_zones.rows.filter
        (fun c => within z.geom.ctr c.geom && c.cz_groups.isSome)).map
      (fun c => ⟨z.zip, z.geom, c.cz_groups⟩))

/-- One row per (reprojected feeder row, containing ZIP polygon), and a
single absent-ZIP row for a feeder contained in no polygon: the join that
`feeder_zips_map` deduplicates. -/
def feeder_zip_join (reproj : Reproj) (feeders : GeoLayer FeederRow)
    (zips_climate : GeoLayer ZipClimateRow) : List FeederZipRow :=
  (to_crs_feeders reproj zips_climate.crs feeders).rows.flatMap (fun f =>
    let ms := zips_climate.rows.filter (fun z => within f.geom.ctr z.geom)
    if ms.isEmpty then [⟨f.feeder_id, none⟩]
    else ms.map (fun z => ⟨f.feeder_id, some z.zip⟩))

/-- For each deduplicated (ZIP, group) row: one output row per catalog
entry carrying that group (with multiplicity), or a single absent-profile
row when the group is absent or matches no catalog entry: the shape
`zip_gp_lookup` is proved to produce. -/
def zip_gp_rows (zips_climate : List ZipClimateRow)
    (gps_all : List GpRow) : List ZipGpRow :=
  (firstDedup (zips_climate.map (fun r => (r.zip, r.cz_groups)))).flatMap
    (fun zs =>
      match zs.2 with
      | none => [⟨zs.1, none, none⟩]
      | some s =>
        match gps_all.filter (fun r => r.seg_cz = s) with
        | [] => [⟨zs.1, some s, none⟩]
        | e :: es => (e :: es).map (fun r => ⟨zs.1, some s, some r.gp⟩))

/-- The multiset of aggregated kWh values that feed the final cell for
feeder `f`, month `m`, hour `h`, profile `g`: one value `lr.kwh` for each
triple of a `zip_gp` row, a matching aggregated-load row, and a
feeder-map row assigning the `zip_gp` row's ZIP to `f`. -/
def load_contributions (zip_gp : List ZipGpRow)
    (load_month_hour : List LoadMonthHourRow)
    (feeder_zip_map : List FeederZipRow)
    (f : String) (m h : Nat) (g : String) : List ℚ :=
  zip_gp.flatMap (fun zg =>
    (load_month_hour.filter (fun lr =>
        zg.gp = some lr.gp ∧ lr.gp = g ∧ lr.month = m ∧ lr.hour = h)).flatMap
      (fun lr =>
        (feeder_zip_map.filter (fun fr =>
            fr.zip = some zg.zip ∧ fr.feeder_id = f)).map
          (fun _ => lr.kwh)))

/-!
The concrete scenario of the spec's testable-property section: two ZIPs
(90210 Coastal, 95603 Inland), a catalog with P1 Coastal and P2 Inland,
two May observations for P1 at hour 0 with kWh 0.10 and 0.20, and one
feeder F1 resolved to ZIP 90210.
-/

/-- A dummy geometry for rows whose geometry is never read. -/
def geom0 : Geom := ⟨[], ⟨0, 0⟩⟩

def scenario_zips_climate : List ZipClimateRow :=
  [⟨90210, geom0, some "Coastal"⟩, ⟨95603, geom0, some "Inland"⟩]

def scenario_gps : List GpRow := [⟨"P1", "Coastal"⟩, ⟨"P2", "Inland"⟩]

def scenario_load : List LoadObs :=
  [⟨"P1", ⟨2024, 5, 1⟩, 0, 1/10⟩, ⟨"P1", ⟨2024, 5, 2⟩, 0, 2/10⟩]

def scenario_feeder_map : List FeederZipRow := [⟨"F1", some 90210⟩]

/-- The feature matrix the pipeline produces on the scenario inputs. -/
def scenario_out : FeederWide :=
  build_feeder_load_features
    (zip_gp_lookup scenario_zips_climate scenario_gps)
    (aggregate_load_shapes scenario_load)
    scenario_feeder_map

/-- The identity reprojection, used for concrete instances whose layers
already share a CRS. -/
def reproj_id : Reproj := fun _ _ g => g

/-!
Staged restatement of `build_feeder_load_features`: each local binding of
the source function as a named definition, so the theorems can speak
about the intermediate tables.  `build_eq_staged` below proves the staged
form definitionally equal to the transcription.
-/

/-- `zip_gp_sub`: `zip_gp` restricted to ZIPs present in
`feeder_zip_map["ZIP_CODE"].unique()`. -/
def bf_zip_gp_sub (zip_gp : List ZipGpRow)
    (feeder_zip_map : List FeederZipRow) : List ZipGpRow :=
  zip_gp.filter (fun r =>
    (firstDedup (feeder_zip_map.map (fun f => f.zip))).contains (some r.zip))

/-- `zip_gp_month_hour` after the left merge with `load_month_hour` on
`gp`. -/
def bf_zgmh (zip_gp : List ZipGpRow) (load_month_hour : List LoadMonthHourRow)
    (feeder_zip_map : List FeederZipRow) : List ZipGpMonthHourRow :=
  (bf_zip_gp_sub zip_gp feeder_zip_map).flatMap (fun r =>
    let ms := load_month_hour.filter (fun l => r.gp = some l.gp)
    if ms.isEmpty then [⟨r.zip, r.cz_groups, r.gp, none, none, none⟩]
    else ms.map (fun l => ⟨r.zip, r.cz_groups, r.gp, some l.month, some l.hour, some l.kwh⟩))

/-- `zip_gp_month_hour` after the further left merge with
`feeder_zip_map` on `ZIP_CODE`. -/
def bf_with_feeder (zip_gp : List ZipGpRow)
    (load_month_hour : List LoadMonthHourRow)
    (feeder_zip_map : List FeederZipRow) : List ZgmhFeederRow :=
  (bf_zgmh zip_gp load_month_hour feeder_zip_map).flatMap (fun r =>
    let ms := feeder_zip_map.filter (fun f => f.zip = some r.zip)
    if ms.isEmpty then [⟨r.zip, r.cz_groups, r.gp, r.month, r.hour, r.kwh, none⟩]
    else ms.map (fun f => ⟨r.zip, r.cz_groups, r.gp, r.month, r.hour, r.kwh, some f.feeder_id⟩))

/-- The null-key test pandas applies when grouping: a row enters the
(feeder, month, hour, gp) aggregation only when all four keys are
present; a null kWh contributes 0 to a skipna sum. -/
def bf_toValid (r : ZgmhFeederRow) : Option FgmhRow :=
  match r.feeder_id, r.month, r.hour, r.gp with
  | some f, some m, some h, some g => some ⟨f, m, h, g, r.kwh.getD 0⟩
  | _, _, _, _ => none

/-- The rows entering `groupby(["feeder_id", "month", "hour", "gp"])`:
pandas drops rows with any null group key. -/
def bf_group_in (zip_gp : List ZipGpRow)
    (load_month_hour : List LoadMonthHourRow)
    (feeder_zip_map : List FeederZipRow) : List FgmhRow :=
  (bf_with_feeder zip_gp load_month_hour feeder_zip_map).filterMap bf_toValid

/-- `feeder_gp_month_hour`: the (feeder, month, hour, gp) sums. -/
def bf_fgmh (zip_gp : List ZipGpRow)
    (load_month_hour : List LoadMonthHourRow)
    (feeder_zip_map : List FeederZipRow) : List FgmhRow :=
  (groupByKey (fun r : FgmhRow => (r.feeder_id, r.month, r.hour, r.gp))
      (bf_group_in zip_gp load_month_hour feeder_zip_map)).map
    (fun g => ⟨g.1.1, g.1.2.1, g.1.2.2.1, g.1.2.2.2, (g.2.map (fun r => r.kwh)).sum⟩)

/-- The pivot's column keys: the distinct `gp` values present. -/
def bf_cols (zip_gp : List ZipGpRow)
    (load_month_hour : List LoadMonthHourRow)
    (feeder_zip_map : List FeederZipRow) : List String :=
  firstDedup ((bf_fgmh zip_gp load_month_hour feeder_zip_map).map (fun r => r.gp))

/-- The pivot's index keys: the distinct (feeder, month, hour) triples
present. -/
def bf_keys (zip_gp : List ZipGpRow)
    (load_month_hour : List LoadMonthHourRow)
    (feeder_zip_map : List FeederZipRow) : List (String × Nat × Nat) :=
  firstDedup ((bf_fgmh zip_gp load_month_hour feeder_zip_map).map
    (fun r => (r.feeder_id, r.month, r.hour)))

/-- The pivoted rows before column renaming. -/
def bf_pre (zip_gp : List ZipGpRow)
    (load_month_hour : List LoadMonthHourRow)
    (feeder_zip_map : List FeederZipRow) : List FeederWideRow :=
  (bf_keys zip_gp load_month_hour feeder_zip_map).map (fun k =>
    ⟨k.1, k.2.1, k.2.2, (bf_cols zip_gp load_month_hour feeder_zip_map).map (fun g => (g,
      (((bf_fgmh zip_gp load_month_hour feeder_zip_map).filter (fun r =>
        r.feeder_id = k.1 ∧ r.month = k.2.1 ∧ r.hour = k.2.2 ∧ r.gp = g)).map
        (fun r => r.kwh)).sum))⟩)

/-- The staged form of `build_feeder_load_features`. -/
def build_staged (zip_gp : List ZipGpRow)
    (load_month_hour : List LoadMonthHourRow)
    (feeder_zip_map : List FeederZipRow) : FeederWide :=
  ⟨["feeder_id", "month", "hour"] ++
     (bf_cols zip_gp load_month_hour feeder_zip_map).map kwh_col,
   (bf_pre zip_gp load_month_hour feeder_zip_map).map (fun r =>
     ⟨r.feeder_id, r.month, r.hour,
      r.cells.map (fun cv => (kwh_col cv.1, cv.2))⟩)⟩

/-- The rows entering the (feeder, month, hour, gp) aggregation, restated
as the comprehension over the three input tables that the left merges
amount to: one row per (zip_gp row, matching aggregated-load row,
feeder-map row matching the ZIP). -/
def build_triples (zip_gp : List ZipGpRow)
    (load_month_hour : List LoadMonthHourRow)
    (feeder_zip_map : List FeederZipRow) : List FgmhRow :=
  zip_gp.flatMap (fun zg =>
    (load_month_hour.filter (fun lr => zg.gp = some lr.gp)).flatMap (fun lr =>
      (feeder_zip_map.filter (fun fr => fr.zip = some zg.zip)).map (fun fr =>
        ⟨fr.feeder_id, lr.month, lr.hour, lr.gp, lr.kwh⟩)))

/-- Inputs for the concrete pivot instance: one ZIP-profile pair, one
aggregated value, one feeder. -/
def c1w_zip_gp : List ZipGpRow := [⟨111, some "Coastal", some "P"⟩]

def c1w_lmh : List LoadMonthHourRow := [⟨"P", 5, 0, 2⟩]

def c1w_fzm : List FeederZipRow := [⟨"F", some 111⟩]

/-!
Theorems.  General lemmas about the list utilities first, then the
claim-level theorems.
-/

theorem mem_firstDedupAux {α : Type} [DecidableEq α] (a : α) (l : List α) :
    ∀ seen : List α, (a ∈ firstDedupAux seen l ↔ a ∈ l ∧ a ∉ seen) := by
  induction l with
  | nil => intro seen; simp [firstDedupAux]
  | cons b l ih =>
    intro seen
    by_cases hb : b ∈ seen
    · rw [firstDedupAux, if_pos hb, ih seen]
      simp only [List.mem_cons]
      constructor
      · rintro ⟨h, hn⟩; exact ⟨Or.inr h, hn⟩
      · rintro ⟨h | h, hn⟩
        · exact absurd (h ▸ hb) hn
        · exact ⟨h, hn⟩
    · rw [firstDedupAux, if_neg hb]
      simp only [List.mem_cons, ih (b :: seen), List.mem_cons]
      constructor
      · rintro (h | ⟨h, hn⟩)
        · exact ⟨Or.inl h, h ▸ hb⟩
        · exact ⟨Or.inr h, fun hs => hn (Or.inr hs)⟩
      · rintro ⟨h | h, hn⟩
        · exact Or.inl h
        · by_cases hab : a = b
          · exact Or.inl hab
          · exact Or.inr ⟨h, fun hs => hs.elim hab hn⟩

theorem mem_firstDedup {α : Type} [DecidableEq α] (a : α) (l : List α) :
    a ∈ firstDedup l ↔ a ∈ l := by
  rw [firstDedup, mem_firstDedupAux]
  simp

theorem nodup_firstDedupAux {α : Type} [DecidableEq α] (l : List α) :
    ∀ seen : List α, (firstDedupAux seen l).Nodup := by
  induction l with
  | nil => intro seen; simp [firstDedupAux]
  | cons b l ih =>
    intro seen
    by_cases hb : b ∈ seen
    · rw [firstDedupAux, if_pos hb]; exact ih seen
    · rw [firstDedupAux, if_neg hb, List.nodup_cons]
      refine ⟨fun hmem => ?_, ih (b :: seen)⟩
      rw [mem_firstDedupAux] at hmem
      exact hmem.2 (List.mem_cons_self b seen)

theorem nodup_firstDedup {α : Type} [DecidableEq α] (l : List α) :
    (firstDedup l).Nodup := nodup_firstDedupAux l []

theorem filter_eq_self_of_nodup {α : Type} [DecidableEq α] (l : List α)
    (hl : l.Nodup) (a : α) :
    l.filter (fun b => b = a) = if a ∈ l then [a] else [] := by
  induction l with
  | nil => simp
  | cons b l ih =>
    simp only [List.nodup_cons] at hl
    by_cases hba : b = a
    · subst hba
      have : l.filter (fun c => c = b) = [] := by
        rw [List.filter_eq_nil_iff]
        intro c hc
        simp only [decide_eq_true_eq]
        intro hcb; exact hl.1 (hcb ▸ hc)
      simp [List.filter_cons, this]
    · have hmem : a ∈ b :: l ↔ a ∈ l := by
        constructor
        · intro h
          rcases List.mem_cons.mp h with h | h
          · exact absurd h.symm hba
          · exact h
        · exact fun h => List.mem_cons_of_mem _ h
      rw [List.filter_cons]
      simp only [decide_eq_true_eq, hba, if_false]
      rw [ih hl.2]
      exact (if_congr hmem rfl rfl).symm

theorem groupByKey_filter_key {α κ : Type} [DecidableEq κ]
    (key : α → κ) (l : List α) (k : κ) :
    (groupByKey key l).filter (fun g => g.1 = k) =
      if k ∈ l.map key then [(k, l.filter (fun a => key a = k))] else [] := by
  unfold groupByKey
  rw [List.filter_map]
  have hcomp : ((fun g : κ × List α => decide (g.1 = k)) ∘
      (fun k2 => (k2, l.filter (fun a => key a = k2)))) =
      (fun b => decide (b = k)) := by
    funext k2; rfl
  rw [hcomp, filter_eq_self_of_nodup _ (nodup_firstDedup _) k]
  by_cases hk : k ∈ l.map key
  · rw [if_pos ((mem_firstDedup _ _).mpr hk), if_pos hk]; rfl
  · rw [if_neg (fun h => hk ((mem_firstDedup _ _).mp h)), if_neg hk]; rfl

theorem keys_groupByKey {α κ : Type} [DecidableEq κ]
    (key : α → κ) (l : List α) :
    (groupByKey key l).map Prod.fst = firstDedup (l.map key) := by
  unfold groupByKey
  rw [List.map_map]
  exact List.map_id _

theorem flatMap_congr_mem {α β : Type} {l : List α} {f g : α → List β}
    (h : ∀ a ∈ l, f a = g a) : l.flatMap f = l.flatMap g := by
  induction l with
  | nil => rfl
  | cons a l ih =>
    rw [List.flatMap_cons, List.flatMap_cons, h a (List.mem_cons_self a l),
      ih (fun b hb => h b (List.mem_cons_of_mem a hb))]

theorem filter_flatMap_left {α β : Type} (l : List α) (p : α → Bool)
    (f : α → List β) :
    (l.filter p).flatMap f = l.flatMap (fun a => if p a then f a else []) := by
  induction l with
  | nil => rfl
  | cons a l ih =>
    rw [List.filter_cons, List.flatMap_cons]
    by_cases hp : p a
    · rw [if_pos hp, if_pos hp, List.flatMap_cons, ih]
    · rw [if_neg hp, if_neg hp, ih]; rfl

/-- The staged form agrees with the transcription of the source
function. -/
theorem build_eq_staged (zip_gp : List ZipGpRow)
    (load_month_hour : List LoadMonthHourRow)
    (feeder_zip_map : List FeederZipRow) :
    build_feeder_load_features zip_gp load_month_hour feeder_zip_map =
      build_staged zip_gp load_month_hour feeder_zip_map := rfl

/-- C9: the climate-zone mapping assigns Coastal to codes 1, 3, 5, Inland
to 2 and 4, North Central Valley to 11 and 12, South Central Valley to
13; every other integer code maps to an absent group rather than raising,
and `map_climate_zones` writes exactly this lookup into the `cz_groups`
column of every row. -/
theorem map_climate_zones_table_spec :
    (cz_group_of 1 = some "Coastal" ∧ cz_group_of 3 = some "Coastal" ∧
     cz_group_of 5 = some "Coastal" ∧ cz_group_of 2 = some "Inland" ∧
     cz_group_of 4 = some "Inland" ∧
     cz_group_of 11 = some "North Central Valley" ∧
     cz_group_of 12 = some "North Central Valley" ∧
     cz_group_of 13 = some "South Central Valley") ∧
    (∀ z : Int, z ∉ ([1, 3, 5, 2, 4, 11, 12, 13] : List Int) →
      cz_group_of z = none) ∧
    (∀ climate_zones : GeoLayer CZRawRow,
      ∀ r ∈ (map_climate_zones climate_zones).rows,
        r.cz_groups = cz_group_of r.bzone) := by
  refine ⟨by decide, ?_, ?_⟩
  · intro z hz
    simp only [List.mem_cons, List.not_mem_nil, or_false, not_or] at hz
    obtain ⟨h1, h3, h5, h2, h4, h11, h12, h13⟩ := hz
    unfold cz_group_of
    have : cz_groups_table.find? (fun p => p.1 = z) = none := by
      rw [List.find?_eq_none]
      intro x hx
      fin_cases hx <;> simp only [decide_eq_true_eq] <;> omega
    rw [this]; rfl
  · intro climate_zones r hr
    simp only [map_climate_zones, List.mem_map] at hr
    obtain ⟨r0, _, rfl⟩ := hr
    rfl

/-- Witness for C9: code 7 is outside the table and yields no group, and
a concrete layer row gets the looked-up value. -/
theorem map_climate_zones_table_spec_witness :
    cz_group_of 7 = none ∧
    (⟨7, none, geom0⟩ : CZRow).cz_groups = cz_group_of 7 := by
  constructor
  · exact map_climate_zones_table_spec.2.1 7 (by decide)
  · exact map_climate_zones_table_spec.2.2 ⟨4326, [⟨7, geom0⟩]⟩
      ⟨7, none, geom0⟩ (by decide)

/-- C10: the two module-level definitions of `build_feeder_load_features`
(lines 188-246 and 250-310 of `merge_pipeline.py`, the second shadowing
the first) compute the same function on every input triple; their bodies
differ only in comments and line breaks, so the transcriptions are
definitionally equal. -/
theorem build_feeder_load_features_redef :
    ∀ (zip_gp : List ZipGpRow) (load_month_hour : List LoadMonthHourRow)
      (feeder_zip_map : List FeederZipRow),
      build_feeder_load_features_first zip_gp load_month_hour feeder_zip_map =
        build_feeder_load_features zip_gp load_month_hour feeder_zip_map :=
  fun _ _ _ => rfl

/-- Counterexample to C5 as stated: on the spec's own scenario the output
has no `kwh_P2` column at all (the pivot only creates columns for
profiles that reach it, and P2's ZIP 95603 has no feeder), so the claimed
cell `kwh_P2 = 0.0` does not exist. -/
theorem scenario_no_p2_column :
    scenario_out.cols = ["feeder_id", "month", "hour", "kwh_P1"] ∧
    "kwh_P2" ∉ scenario_out.cols := by decide

/-- C5 amended: on the scenario inputs the output row for (F1, month 5,
hour 0) carries `kwh_P1 = 0.15`, and the column set is exactly
feeder_id, month, hour, kwh_P1 — the profile P2 of the feederless ZIP
gets no column rather than a 0.0 cell. -/
theorem scenario_row_spec :
    scenario_out.rows =
      [⟨"F1", 5, 0, [("kwh_P1", 3/20)]⟩] ∧
    scenario_out.cols = ["feeder_id", "month", "hour", "kwh_P1"] ∧
    (3 / 20 : ℚ) = (1/10 + 2/10) / 2 := by
  have h1 : zip_gp_lookup scenario_zips_climate scenario_gps =
      [⟨90210, some "Coastal", some "P1"⟩, ⟨95603, some "Inland", some "P2"⟩] := by
    decide
  have h2 : aggregate_load_shapes scenario_load = [⟨"P1", 5, 0, 3/20⟩] := by
    simp only [aggregate_load_shapes, scenario_load, groupByKey, firstDedup,
      firstDedupAux, listMean, List.filter, List.map]
    norm_num
  have hout : scenario_out =
      ⟨["feeder_id", "month", "hour", "kwh_P1"],
       [⟨"F1", 5, 0, [("kwh_P1", 3/20)]⟩]⟩ := by
    unfold scenario_out
    rw [h1, h2]
    simp [build_feeder_load_features, scenario_feeder_map, groupByKey,
      firstDedup, firstDedupAux, kwh_col]
  exact ⟨by rw [hout], by rw [hout], by norm_num⟩

theorem window_filter_key_eq (load_data : List LoadObs)
    (k0 : String × Nat × Nat)
    (hw : ([5, 6, 7, 8, 9, 10].contains k0.2.1) = true) :
    (load_data.filter (fun o => [5, 6, 7, 8, 9, 10].contains o.date.m)).filter
        (fun a => (a.gp, a.date.m, a.hour) = k0) =
      load_data.filter (fun o =>
        o.gp = k0.1 ∧ o.date.m = k0.2.1 ∧ o.hour = k0.2.2) := by
  rw [List.filter_filter]
  apply List.filter_congr
  intro a _
  by_cases hk : (a.gp, a.date.m, a.hour) = k0
  · have h1 : a.gp = k0.1 := congrArg Prod.fst hk
    have h2 : a.date.m = k0.2.1 := congrArg (fun p => p.2.1) hk
    have h3 : a.hour = k0.2.2 := congrArg (fun p => p.2.2) hk
    have hmem : k0.2.1 ∈ ([5, 6, 7, 8, 9, 10] : List Nat) :=
      List.elem_iff.mp hw
    simp only [List.mem_cons, List.not_mem_nil, or_false] at hmem
    simp [hk, h1, h2, h3]
    exact hmem
  · have : ¬ (a.gp = k0.1 ∧ a.date.m = k0.2.1 ∧ a.hour = k0.2.2) := by
      intro ⟨h1, h2, h3⟩
      exact hk (by
        obtain ⟨kg, km, kh⟩ := k0
        simp only [Prod.mk.injEq]
        exact ⟨h1, h2, h3⟩)
    simp [hk, this]

/-- C2: every aggregated row's month lies in May-October and its kWh is
the arithmetic mean of exactly the raw observations with that profile,
hour and calendar month; a (profile, month, hour) key appears in the
output iff the month is in the window and some matching observation
exists; and the output depends only on the in-window observations, so
out-of-window observations never influence it. -/
theorem aggregate_load_shapes_spec (load_data : List LoadObs) :
    (∀ r ∈ aggregate_load_shapes load_data,
      (5 ≤ r.month ∧ r.month ≤ 10) ∧
      r.kwh = listMean ((load_data.filter (fun o =>
        o.gp = r.gp ∧ o.date.m = r.month ∧ o.hour = r.hour)).map
          (fun o => o.kwh))) ∧
    (∀ gp month hour,
      (∃ r ∈ aggregate_load_shapes load_data,
        r.gp = gp ∧ r.month = month ∧ r.hour = hour) ↔
      (month ∈ ([5, 6, 7, 8, 9, 10] : List Nat) ∧
        ∃ o ∈ load_data, o.gp = gp ∧ o.date.m = month ∧ o.hour = hour)) ∧
    (∀ load_data2 : List LoadObs,
      load_data.filter (fun o => [5, 6, 7, 8, 9, 10].contains o.date.m) =
        load_data2.filter (fun o => [5, 6, 7, 8, 9, 10].contains o.date.m) →
      aggregate_load_shapes load_data = aggregate_load_shapes load_data2) := by
  refine ⟨?_, ?_, ?_⟩
  · intro r hr
    simp only [aggregate_load_shapes, groupByKey, List.mem_map] at hr
    obtain ⟨⟨k, grp⟩, hg, rfl⟩ := hr
    obtain ⟨k0, hk0, heq⟩ := hg
    obtain ⟨hk, hgrp⟩ := Prod.mk.injEq .. ▸ heq
    subst hk
    rw [mem_firstDedup] at hk0
    obtain ⟨o, ho, hko⟩ := List.mem_map.mp hk0
    have how : o ∈ load_data ∧
        ([5, 6, 7, 8, 9, 10].contains o.date.m) = true := by
      simpa using List.mem_filter.mp ho
    have hw : ([5, 6, 7, 8, 9, 10].contains k0.2.1) = true := by
      have : o.date.m = k0.2.1 := congrArg (fun p => p.2.1) hko
      exact this ▸ how.2
    constructor
    · have hmem : k0.2.1 ∈ ([5, 6, 7, 8, 9, 10] : List Nat) :=
        List.elem_iff.mp hw
      simp only [List.mem_cons, List.not_mem_nil, or_false] at hmem
      show 5 ≤ k0.2.1 ∧ k0.2.1 ≤ 10
      omega
    · show listMean _ = listMean _
      congr 1
      rw [← hgrp]
      exact congrArg (List.map (fun o => o.kwh))
        (window_filter_key_eq load_data k0 hw)
  · intro gp month hour
    constructor
    · rintro ⟨r, hr, hgp, hm, hh⟩
      simp only [aggregate_load_shapes, groupByKey, List.mem_map] at hr
      obtain ⟨⟨k, grp⟩, hg, rfl⟩ := hr
      obtain ⟨k0, hk0, heq⟩ := hg
      obtain ⟨hk, hgrp⟩ := Prod.mk.injEq .. ▸ heq
      subst hk
      rw [mem_firstDedup] at hk0
      obtain ⟨o, ho, hko⟩ := List.mem_map.mp hk0
      have how := List.mem_filter.mp ho
      have h1 : o.gp = k0.1 := congrArg Prod.fst hko
      have h2 : o.date.m = k0.2.1 := congrArg (fun p => p.2.1) hko
      have h3 : o.hour = k0.2.2 := congrArg (fun p => p.2.2) hko
      have hmem : o.date.m ∈ ([5, 6, 7, 8, 9, 10] : List Nat) :=
        List.elem_iff.mp (by simpa using how.2)
      refine ⟨?_, o, how.1, ?_, ?_, ?_⟩
      · rw [← hm]; show k0.2.1 ∈ _; rw [← h2]; exact hmem
      · rw [← hgp]; exact h1
      · rw [← hm]; exact h2
      · rw [← hh]; exact h3
    · rintro ⟨hmw, o, ho, hgp, hm, hh⟩
      have hof : o ∈ load_data.filter
          (fun o => [5, 6, 7, 8, 9, 10].contains o.date.m) := by
        rw [List.mem_filter]
        exact ⟨ho, by rw [hm]; exact List.elem_iff.mpr hmw⟩
      have hkey : (gp, month, hour) ∈
          (load_data.filter
            (fun o => [5, 6, 7, 8, 9, 10].contains o.date.m)).map
            (fun o => (o.gp, o.date.m, o.hour)) := by
        rw [List.mem_map]
        exact ⟨o, hof, by rw [hgp, hm, hh]⟩
      have hk0 : (gp, month, hour) ∈ firstDedup
          ((load_data.filter
            (fun o => [5, 6, 7, 8, 9, 10].contains o.date.m)).map
            (fun o => (o.gp, o.date.m, o.hour))) :=
        (mem_firstDedup _ _).mpr hkey
      have hg2 := List.mem_map_of_mem (fun k =>
        (k, (load_data.filter
          (fun o => [5, 6, 7, 8, 9, 10].contains o.date.m)).filter
          (fun a => (a.gp, a.date.m, a.hour) = k))) hk0
      have hrow := List.mem_map_of_mem
        (fun g : (String × Nat × Nat) × List LoadObs =>
          (⟨g.1.1, g.1.2.1, g.1.2.2,
            listMean (g.2.map (fun o => o.kwh))⟩ : LoadMonthHourRow)) hg2
      exact ⟨_, hrow, rfl, rfl, rfl⟩
  · intro load_data2 hfil
    simp only [aggregate_load_shapes]
    rw [hfil]

/-- Witness for C2 at the scenario observations: the aggregated row for
(P1, May, hour 0) is present with the mean 0.15, its month is in the
window, and appending an April observation leaves the output
unchanged. -/
theorem aggregate_load_shapes_spec_witness :
    ((⟨"P1", 5, 0, 3/20⟩ : LoadMonthHourRow) ∈
      aggregate_load_shapes scenario_load) ∧
    ((5 ≤ (5 : Nat) ∧ (5 : Nat) ≤ 10) ∧
      (3/20 : ℚ) = listMean ((scenario_load.filter (fun o =>
        o.gp = "P1" ∧ o.date.m = 5 ∧ o.hour = 0)).map (fun o => o.kwh))) ∧
    aggregate_load_shapes scenario_load =
      aggregate_load_shapes (scenario_load ++ [⟨"P1", ⟨2024, 4, 1⟩, 0, 5⟩]) := by
  have h2 : aggregate_load_shapes scenario_load = [⟨"P1", 5, 0, 3/20⟩] := by
    simp only [aggregate_load_shapes, scenario_load, groupByKey, firstDedup,
      firstDedupAux, listMean, List.filter, List.map]
    norm_num
  have hmem : (⟨"P1", 5, 0, 3/20⟩ : LoadMonthHourRow) ∈
      aggregate_load_shapes scenario_load := by
    rw [h2]; exact List.mem_cons_self _ _
  refine ⟨hmem, ?_, ?_⟩
  · exact (aggregate_load_shapes_spec scenario_load).1 ⟨"P1", 5, 0, 3/20⟩ hmem
  · exact (aggregate_load_shapes_spec scenario_load).2.2
      (scenario_load ++ [⟨"P1", ⟨2024, 4, 1⟩, 0, 5⟩]) rfl

theorem process_zip_climate_mapping_eq (reproj : Reproj)
    (zips : GeoLayer ZipRow) (czs : GeoLayer CZRow) :
    process_zip_climate_mapping reproj zips czs =
      .ok ⟨czs.crs, zip_climate_join reproj zips czs⟩ := by
  simp only [process_zip_climate_mapping, sjoin_left]
  have hc : (to_crs_zips reproj czs.crs zips).crs = czs.crs := rfl
  rw [if_pos hc]
  simp only [Except.map]
  congr 1
  congr 1
  rw [zip_climate_join, List.filter_flatMap]
  apply flatMap_congr_mem
  intro z hz
  have hrw : czs.rows.filter (fun c =>
      within z.geom.ctr c.geom && c.cz_groups.isSome) =
      (czs.rows.filter (fun c => within z.geom.ctr c.geom)).filter
        (fun c => c.cz_groups.isSome) := by
    rw [List.filter_filter]
    apply List.filter_congr
    intro c _
    rw [Bool.and_comm]
  rw [hrw]
  by_cases hms : czs.rows.filter (fun c => within z.geom.ctr c.geom) = []
  · rw [hms]
    simp
  · rw [if_neg (by simp only [List.isEmpty_iff]; exact hms)]
    rw [List.filter_map]
    rfl

theorem feeder_zips_map_eq (reproj : Reproj) (feeders : GeoLayer FeederRow)
    (zc : GeoLayer ZipClimateRow) :
    feeder_zips_map reproj feeders zc =
      .ok (firstDedup (feeder_zip_join reproj feeders zc)) := by
  simp only [feeder_zips_map, sjoin_left, feeder_zip_join]
  have hc : (to_crs_feeders reproj zc.crs feeders).crs = zc.crs := rfl
  rw [if_pos hc]
  rfl

/-- C7 corrected: neither spatial-join stage fails on a coordinate
reference system mismatch — each first reprojects its left layer to the
right layer's CRS (so the join, which in this model would error if it
ever saw differing CRS, always sees equal ones) and then returns
normally, for every input including mismatched ones. -/
theorem crs_mismatch_is_reprojected :
    ∀ (reproj : Reproj) (zips : GeoLayer ZipRow) (czs : GeoLayer CZRow)
      (feeders : GeoLayer FeederRow) (zc : GeoLayer ZipClimateRow),
      (∃ t, process_zip_climate_mapping reproj zips czs = .ok t) ∧
      (∃ u, feeder_zips_map reproj feeders zc = .ok u) :=
  fun reproj zips czs feeders zc =>
    ⟨⟨_, process_zip_climate_mapping_eq reproj zips czs⟩,
     ⟨_, feeder_zips_map_eq reproj feeders zc⟩⟩

/-- Counterexample to C7 as stated: with ZIP layer CRS 9999 against
climate layer CRS 4326 (and a feeder layer CRS 9999 against ZIP-climate
CRS 4326), both stages return a normal result instead of failing fast
with an error. -/
theorem crs_mismatch_no_error :
    (9999 : Nat) ≠ 4326 ∧
    process_zip_climate_mapping reproj_id ⟨9999, [⟨90210, ⟨[], ⟨1, 1⟩⟩⟩]⟩
        ⟨4326, [⟨1, some "Coastal", ⟨[⟨1, 1⟩], ⟨0, 0⟩⟩⟩]⟩ =
      .ok ⟨4326, [⟨90210, ⟨[], ⟨1, 1⟩⟩, some "Coastal"⟩]⟩ ∧
    feeder_zips_map reproj_id ⟨9999, [⟨"F1", ⟨[], ⟨1, 1⟩⟩⟩]⟩
        ⟨4326, [⟨11111, ⟨[⟨1, 1⟩], ⟨0, 0⟩⟩, some "Coastal"⟩]⟩ =
      .ok [⟨"F1", some 11111⟩] :=
  ⟨by decide, rfl, rfl⟩

/-- C3 amended: the feeder-to-ZIP resolution returns the spatial join
deduplicated by whole (feeder id, ZIP) pairs, so each pair appears at
most once; a feeder whose centroid lies in several ZIP polygons keeps one
row per containing polygon (its feeder id recurs), and a feeder whose
centroid lies in no ZIP polygon is kept in a row with an absent ZIP code
rather than being dropped. -/
theorem feeder_zips_map_spec :
    ∀ (reproj : Reproj) (feeders : GeoLayer FeederRow)
      (zc : GeoLayer ZipClimateRow),
      feeder_zips_map reproj feeders zc =
        .ok (firstDedup (feeder_zip_join reproj feeders zc)) ∧
      (firstDedup (feeder_zip_join reproj feeders zc)).Nodup ∧
      (∀ p : FeederZipRow,
        p ∈ firstDedup (feeder_zip_join reproj feeders zc) ↔
        p ∈ feeder_zip_join reproj feeders zc) ∧
      (∀ fr ∈ (to_crs_feeders reproj zc.crs feeders).rows,
        zc.rows.filter (fun z => within fr.geom.ctr z.geom) = [] →
        (⟨fr.feeder_id, none⟩ : FeederZipRow) ∈
          firstDedup (feeder_zip_join reproj feeders zc)) := by
  intro reproj feeders zc
  refine ⟨feeder_zips_map_eq reproj feeders zc, nodup_firstDedup _,
    fun p => mem_firstDedup p _, ?_⟩
  intro fr hfr hnone
  rw [mem_firstDedup, feeder_zip_join, List.mem_flatMap]
  refine ⟨fr, hfr, ?_⟩
  simp [hnone]

/-- Witness for C3's amended theorem: a feeder matching no ZIP polygon is
present in the output with an absent ZIP code. -/
theorem feeder_zips_map_spec_witness :
    (⟨"F2", none⟩ : FeederZipRow) ∈
      firstDedup (feeder_zip_join reproj_id
        ⟨4326, [⟨"F2", ⟨[], ⟨5, 5⟩⟩⟩]⟩ ⟨4326, []⟩) :=
  (feeder_zips_map_spec reproj_id ⟨4326, [⟨"F2", ⟨[], ⟨5, 5⟩⟩⟩]⟩
      ⟨4326, []⟩).2.2.2 ⟨"F2", ⟨[], ⟨5, 5⟩⟩⟩ (by decide) (by decide)

/-- Counterexample to C3 as stated: feeder F1, whose centroid lies in two
ZIP polygons, appears in two output rows (one per ZIP), and feeder F2,
whose centroid lies in no ZIP polygon, appears in a row with an absent
ZIP code instead of being dropped. -/
theorem feeder_zips_map_claim_false :
    feeder_zips_map reproj_id
        ⟨4326, [⟨"F1", ⟨[], ⟨1, 1⟩⟩⟩, ⟨"F2", ⟨[], ⟨5, 5⟩⟩⟩]⟩
        ⟨4326, [⟨11111, ⟨[⟨1, 1⟩], ⟨0, 0⟩⟩, some "Coastal"⟩,
                ⟨22222, ⟨[⟨1, 1⟩], ⟨0, 0⟩⟩, some "Inland"⟩]⟩ =
      .ok [⟨"F1", some 11111⟩, ⟨"F1", some 22222⟩, ⟨"F2", none⟩] := rfl

theorem nodup_map_flatMap {α β κ : Type} [DecidableEq κ]
    (l : List α) (f : α → List β) (ka : α → κ) (kb : β → κ)
    (hnd : (l.map ka).Nodup) (hlen : ∀ a ∈ l, (f a).length ≤ 1)
    (hkey : ∀ a ∈ l, ∀ b ∈ f a, kb b = ka a) :
    ((l.flatMap f).map kb).Nodup := by
  induction l with
  | nil => simp
  | cons a l ih =>
    simp only [List.map_cons, List.nodup_cons] at hnd
    obtain ⟨hka, hnd2⟩ := hnd
    rw [List.flatMap_cons, List.map_append]
    have hih := ih hnd2 (fun x hx => hlen x (List.mem_cons_of_mem a hx))
      (fun x hx => hkey x (List.mem_cons_of_mem a hx))
    have hfa := hlen a (List.mem_cons_self a l)
    rcases hf : f a with _ | ⟨b, bs⟩
    · simpa using hih
    · rcases bs with _ | ⟨b2, bs2⟩
      · rw [List.map_cons, List.map_nil, List.singleton_append,
          List.nodup_cons]
        refine ⟨?_, hih⟩
        intro hmem
        rw [List.mem_map] at hmem
        obtain ⟨b2, hb2, hkb⟩ := hmem
        rw [List.mem_flatMap] at hb2
        obtain ⟨a2, ha2, hb2f⟩ := hb2
        have h1 : kb b2 = ka a2 :=
          hkey a2 (List.mem_cons_of_mem a ha2) b2 hb2f
        have h2 : kb b = ka a :=
          hkey a (List.mem_cons_self a l) b (hf ▸ List.mem_cons_self b [])
        apply hka
        rw [List.mem_map]
        exact ⟨a2, ha2, by rw [← h1, hkb, h2]⟩
      · rw [hf] at hfa
        simp at hfa

/-- C4 amended: the ZIP-to-climate resolution produces one row per
(reprojected ZIP row, containing climate polygon with a defined group);
so a ZIP whose centroid lies inside two overlapping labelled polygons
appears twice, but whenever ZIP codes are distinct and no centroid lies
in more than one labelled polygon, no ZIP code recurs in the output. -/
theorem process_zip_climate_mapping_spec :
    ∀ (reproj : Reproj) (zips : GeoLayer ZipRow) (czs : GeoLayer CZRow),
      process_zip_climate_mapping reproj zips czs =
        .ok ⟨czs.crs, zip_climate_join reproj zips czs⟩ ∧
      (((to_crs_zips reproj czs.crs zips).rows.map (fun z => z.zip)).Nodup →
        (∀ z ∈ (to_crs_zips reproj czs.crs zips).rows,
          (czs.rows.filter (fun c =>
            within z.geom.ctr c.geom && c.cz_groups.isSome)).length ≤ 1) →
        ((zip_climate_join reproj zips czs).map (fun r => r.zip)).Nodup) := by
  intro reproj zips czs
  refine ⟨process_zip_climate_mapping_eq reproj zips czs, ?_⟩
  intro hnd hlen
  rw [zip_climate_join]
  refine nodup_map_flatMap (to_crs_zips reproj czs.crs zips).rows
    (fun z => (czs.rows.filter (fun c =>
      within z.geom.ctr c.geom && c.cz_groups.isSome)).map
      (fun c => (⟨z.zip, z.geom, c.cz_groups⟩ : ZipClimateRow)))
    (fun z => z.zip) (fun r : ZipClimateRow => r.zip) hnd ?_ ?_
  · intro z hz
    rw [List.length_map]
    exact hlen z hz
  · intro z hz r hr
    rw [List.mem_map] at hr
    obtain ⟨c, _, rfl⟩ := hr
    rfl

/-- Witness for C4's amended theorem: with distinct ZIPs and disjoint
labelled polygons the output assigns each ZIP at most once. -/
theorem process_zip_climate_mapping_spec_witness :
    ((zip_climate_join reproj_id
        ⟨4326, [⟨90210, ⟨[], ⟨1, 1⟩⟩⟩, ⟨90211, ⟨[], ⟨5, 5⟩⟩⟩]⟩
        ⟨4326, [⟨1, some "Coastal", ⟨[⟨1, 1⟩], ⟨0, 0⟩⟩⟩,
                ⟨2, some "Inland", ⟨[⟨5, 5⟩], ⟨0, 0⟩⟩⟩]⟩).map
      (fun r => r.zip)).Nodup :=
  (process_zip_climate_mapping_spec reproj_id
      ⟨4326, [⟨90210, ⟨[], ⟨1, 1⟩⟩⟩, ⟨90211, ⟨[], ⟨5, 5⟩⟩⟩]⟩
      ⟨4326, [⟨1, some "Coastal", ⟨[⟨1, 1⟩], ⟨0, 0⟩⟩⟩,
              ⟨2, some "Inland", ⟨[⟨5, 5⟩], ⟨0, 0⟩⟩⟩]⟩).2
    (by decide) (by decide)

/-- Counterexample to C4 as stated: a ZIP whose centroid lies within two
overlapping labelled climate polygons appears twice in the output, once
per group, so a ZIP code can recur with different groups. -/
theorem process_zip_claim_false :
    process_zip_climate_mapping reproj_id ⟨4326, [⟨90210, ⟨[], ⟨1, 1⟩⟩⟩]⟩
        ⟨4326, [⟨1, some "Coastal", ⟨[⟨1, 1⟩], ⟨0, 0⟩⟩⟩,
                ⟨2, some "Inland", ⟨[⟨1, 1⟩], ⟨0, 0⟩⟩⟩]⟩ =
      .ok ⟨4326, [⟨90210, ⟨[], ⟨1, 1⟩⟩, some "Coastal"⟩,
                  ⟨90210, ⟨[], ⟨1, 1⟩⟩, some "Inland"⟩]⟩ ∧
    ¬ ((([⟨90210, ⟨[], ⟨1, 1⟩⟩, some "Coastal"⟩,
          ⟨90210, ⟨[], ⟨1, 1⟩⟩, some "Inland"⟩] : List ZipClimateRow).map
        (fun r => r.zip)).Nodup) :=
  ⟨rfl, by decide⟩

theorem zip_gp_lookup_eq (zips_climate : List ZipClimateRow)
    (gps_all : List GpRow) :
    zip_gp_lookup zips_climate gps_all = zip_gp_rows zips_climate gps_all := by
  simp only [zip_gp_lookup, zip_gp_rows]
  rw [List.flatMap_assoc]
  apply flatMap_congr_mem
  intro zs _
  rcases hz2 : zs.2 with _ | s
  · have hms : (((groupByKey (fun r : GpRow => r.seg_cz) gps_all).map
        (fun g => (g.1, g.2.map (fun r => r.gp)))).filter
        (fun gz => some gz.1 = (none : Option String))) = [] := by
      rw [List.filter_eq_nil_iff]
      intro gz _
      simp
    rw [hms]
    simp
  · have hms : (((groupByKey (fun r : GpRow => r.seg_cz) gps_all).map
        (fun g => (g.1, g.2.map (fun r => r.gp)))).filter
        (fun gz => some gz.1 = some s)) =
        ((groupByKey (fun r : GpRow => r.seg_cz) gps_all).filter
          (fun g => g.1 = s)).map (fun g => (g.1, g.2.map (fun r => r.gp))) := by
      rw [List.filter_map]
      apply congrArg
      apply List.filter_congr
      intro g _
      simp
    rw [hms, groupByKey_filter_key]
    by_cases hs : s ∈ gps_all.map (fun r => r.seg_cz)
    · rw [if_pos hs]
      rcases hents : gps_all.filter (fun r => r.seg_cz = s) with _ | ⟨e, es⟩
      · exfalso
        obtain ⟨r, hr, hrs⟩ := List.mem_map.mp hs
        have : r ∈ gps_all.filter (fun r => r.seg_cz = s) :=
          List.mem_filter.mpr ⟨hr, by simp [hrs]⟩
        rw [hents] at this
        simp at this
      · simp [hents, List.map_map]
    · rw [if_neg hs]
      have hents : gps_all.filter (fun r => r.seg_cz = s) = [] := by
        rw [List.filter_eq_nil_iff]
        intro r hr
        simp only [decide_eq_true_eq]
        intro hrs
        exact hs (List.mem_map.mpr ⟨r, hr, hrs⟩)
      simp [hents]

/-- C8 amended: the ZIP-to-profile expansion emits, for each
deduplicated (ZIP, group) row whose group matches at least one catalog
entry, one row per matching catalog entry — counted with multiplicity, so
duplicate catalog entries yield duplicate (ZIP, profile) rows — and a
single absent-profile row for a ZIP whose group is absent or matches no
entry; the output length is the corresponding sum. -/
theorem zip_gp_lookup_spec :
    ∀ (zips_climate : List ZipClimateRow) (gps_all : List GpRow),
      zip_gp_lookup zips_climate gps_all = zip_gp_rows zips_climate gps_all ∧
      (zip_gp_lookup zips_climate gps_all).length =
        ((firstDedup (zips_climate.map (fun r => (r.zip, r.cz_groups)))).map
          (fun zs =>
            match zs.2 with
            | none => 1
            | some s =>
              match gps_all.filter (fun r => r.seg_cz = s) with
              | [] => 1
              | e :: es => (e :: es).length)).sum := by
  intro zips_climate gps_all
  refine ⟨zip_gp_lookup_eq zips_climate gps_all, ?_⟩
  rw [zip_gp_lookup_eq, zip_gp_rows, List.length_flatMap]
  congr 1
  apply List.map_congr_left
  intro zs _
  simp only [Function.comp_apply]
  rcases hz2 : zs.2 with _ | s
  · rfl
  · rcases hents : gps_all.filter (fun r => r.seg_cz = s) with _ | ⟨e, es⟩
    · simp [hents]
    · simp [hents]

/-- Counterexample to C8 as stated: with the catalog holding the entry
(P1, Coastal) twice, the single Coastal ZIP 90210 gets two identical
(ZIP, profile) rows, not exactly one row per (ZIP, candidate profile)
pair. -/
theorem zip_gp_lookup_claim_false :
    zip_gp_lookup [⟨90210, geom0, some "Coastal"⟩]
        [⟨"P1", "Coastal"⟩, ⟨"P1", "Coastal"⟩] =
      [⟨90210, some "Coastal", some "P1"⟩,
       ⟨90210, some "Coastal", some "P1"⟩] ∧
    ((zip_gp_lookup [⟨90210, geom0, some "Coastal"⟩]
        [⟨"P1", "Coastal"⟩, ⟨"P1", "Coastal"⟩]).filter
      (fun r => r.zip = 90210 ∧ r.gp = some "P1")).length = 2 := by decide

theorem kwh_col_ne_zip (g : String) : kwh_col g ≠ "ZIP_CODE" := by
  unfold kwh_col
  by_cases h : g = "feeder_id" ∨ g = "month" ∨ g = "hour"
  · rw [if_pos h]
    rcases h with h | h | h <;> subst h <;> decide
  · rw [if_neg h]
    intro heq
    have hd := congrArg String.data heq
    rw [String.data_append] at hd
    have h2 : ('k' :: 'w' :: 'h' :: '_' :: g.data : List Char) =
        ['Z', 'I', 'P', '_', 'C', 'O', 'D', 'E'] := hd
    have h3 : ('k' : Char) = 'Z' := (List.cons_eq_cons.mp h2).1
    exact absurd h3 (by decide)

/-- C6 amended: the final matrix's columns are exactly feeder_id, month,
hour, plus one `kwh_`-renamed column per profile that survives the join
chain into the pivot; every row carries exactly those profile cells.  No
ZIP code column is present — the code never re-attaches the feeder's
ZIP, and profiles that do not reach the pivot get no column. -/
theorem build_cols_spec :
    ∀ (zip_gp : List ZipGpRow) (load_month_hour : List LoadMonthHourRow)
      (feeder_zip_map : List FeederZipRow),
      (build_feeder_load_features zip_gp load_month_hour feeder_zip_map).cols =
        ["feeder_id", "month", "hour"] ++
          (bf_cols zip_gp load_month_hour feeder_zip_map).map kwh_col ∧
      "ZIP_CODE" ∉
        (build_feeder_load_features zip_gp load_month_hour feeder_zip_map).cols ∧
      (∀ r ∈ (build_feeder_load_features zip_gp load_month_hour
          feeder_zip_map).rows,
        r.cells.map Prod.fst =
          (build_feeder_load_features zip_gp load_month_hour
            feeder_zip_map).cols.drop 3) := by
  intro zgp lmh fzm
  rw [build_eq_staged]
  refine ⟨rfl, ?_, ?_⟩
  · intro hmem
    have hmem2 : "ZIP_CODE" ∈ (["feeder_id", "month", "hour"] : List String) ++
        (bf_cols zgp lmh fzm).map kwh_col := hmem
    rw [List.mem_append] at hmem2
    rcases hmem2 with h | h
    · exact absurd h (by decide)
    · obtain ⟨g, _, hg⟩ := List.mem_map.mp h
      exact kwh_col_ne_zip g hg
  · intro r hr
    have hr2 : r ∈ (bf_pre zgp lmh fzm).map (fun r =>
        (⟨r.feeder_id, r.month, r.hour,
          r.cells.map (fun cv => (kwh_col cv.1, cv.2))⟩ : FeederWideRow)) := hr
    rw [bf_pre, List.map_map] at hr2
    obtain ⟨k, _, rfl⟩ := List.mem_map.mp hr2
    refine Eq.trans ?_ (List.drop_left ["feeder_id", "month", "hour"]
      ((bf_cols zgp lmh fzm).map kwh_col)).symm
    simp only [Function.comp_apply, List.map_map]
    exact List.map_congr_left fun g _ => rfl

/-- Witness for C6's amended theorem: the concrete one-profile input has
cells matching the column tail and no ZIP_CODE column. -/
theorem build_cols_spec_witness :
    (⟨"F", 5, 0, [("kwh_P", 2)]⟩ : FeederWideRow).cells.map Prod.fst =
      (build_feeder_load_features c1w_zip_gp c1w_lmh c1w_fzm).cols.drop 3 ∧
    "ZIP_CODE" ∉
      (build_feeder_load_features c1w_zip_gp c1w_lmh c1w_fzm).cols := by
  refine ⟨?_, (build_cols_spec c1w_zip_gp c1w_lmh c1w_fzm).2.1⟩
  apply (build_cols_spec c1w_zip_gp c1w_lmh c1w_fzm).2.2 ⟨"F", 5, 0, [("kwh_P", 2)]⟩
  have : (build_feeder_load_features c1w_zip_gp c1w_lmh c1w_fzm).rows =
      [⟨"F", 5, 0, [("kwh_P", 2)]⟩] := by
    simp [build_feeder_load_features, c1w_zip_gp, c1w_lmh, c1w_fzm,
      groupByKey, firstDedup, firstDedupAux, kwh_col]
  rw [this]
  exact List.mem_cons_self _ _

/-- Counterexample to C6 as stated: on a concrete input the output's
column labels are exactly feeder_id, month, hour and kwh_Q — there is no
ZIP code column in the feature matrix. -/
theorem build_no_zip_column :
    (build_feeder_load_features [⟨11111, some "Inland", some "Q"⟩]
        [⟨"Q", 6, 3, 2⟩] [⟨"F9", some 11111⟩]).cols =
      ["feeder_id", "month", "hour", "kwh_Q"] ∧
    "ZIP_CODE" ∉ (build_feeder_load_features [⟨11111, some "Inland", some "Q"⟩]
        [⟨"Q", 6, 3, 2⟩] [⟨"F9", some 11111⟩]).cols := by decide

theorem filterMap_none_eq_nil {α β : Type} (l : List α) :
    l.filterMap (fun _ => (none : Option β)) = [] := by
  induction l with
  | nil => rfl
  | cons a l ih => rw [List.filterMap_cons]; exact ih

theorem filterMap_some_eq_map {α β : Type} (f : α → β) (l : List α) :
    l.filterMap (fun a => some (f a)) = l.map f :=
  congrFun (List.filterMap_eq_map f) l

theorem s2_filterMap_miss (feeder_zip_map : List FeederZipRow) (zi : Nat)
    (cz gp2 : Option String) (ho : Option Nat) (kw : Option ℚ) :
    (if (feeder_zip_map.filter (fun f => f.zip = some zi)).isEmpty then
        [(⟨zi, cz, gp2, none, ho, kw, none⟩ : ZgmhFeederRow)]
      else (feeder_zip_map.filter (fun f => f.zip = some zi)).map
        (fun f => (⟨zi, cz, gp2, none, ho, kw,
          some f.feeder_id⟩ : ZgmhFeederRow))).filterMap bf_toValid = [] := by
  by_cases hempty : (feeder_zip_map.filter
      (fun f => f.zip = some zi)).isEmpty = true
  · rw [if_pos hempty]
    rfl
  · rw [if_neg hempty, List.filterMap_map]
    exact filterMap_none_eq_nil _

theorem s2_filterMap_hit (feeder_zip_map : List FeederZipRow) (zi : Nat)
    (cz : Option String) (g : String) (m h : Nat) (q : ℚ) :
    (if (feeder_zip_map.filter (fun f => f.zip = some zi)).isEmpty then
        [(⟨zi, cz, some g, some m, some h, some q, none⟩ : ZgmhFeederRow)]
      else (feeder_zip_map.filter (fun f => f.zip = some zi)).map
        (fun f => (⟨zi, cz, some g, some m, some h, some q,
          some f.feeder_id⟩ : ZgmhFeederRow))).filterMap bf_toValid =
      (feeder_zip_map.filter (fun f => f.zip = some zi)).map
        (fun f => (⟨f.feeder_id, m, h, g, q⟩ : FgmhRow)) := by
  by_cases hempty : (feeder_zip_map.filter
      (fun f => f.zip = some zi)).isEmpty = true
  · rw [if_pos hempty]
    rw [List.isEmpty_iff] at hempty
    rw [hempty]
    rfl
  · rw [if_neg hempty, List.filterMap_map]
    exact filterMap_some_eq_map _ _

theorem group_in_eq_triples (zip_gp : List ZipGpRow)
    (load_month_hour : List LoadMonthHourRow)
    (feeder_zip_map : List FeederZipRow) :
    bf_group_in zip_gp load_month_hour feeder_zip_map =
      build_triples zip_gp load_month_hour feeder_zip_map := by
  rw [bf_group_in, bf_with_feeder, bf_zgmh, bf_zip_gp_sub, build_triples]
  rw [List.filterMap_flatMap, List.flatMap_assoc, filter_flatMap_left]
  apply flatMap_congr_mem
  intro zg _
  by_cases hp : ((firstDedup (feeder_zip_map.map (fun f => f.zip))).contains
      (some zg.zip)) = true
  · rw [if_pos hp]
    by_cases hms : load_month_hour.filter (fun l => zg.gp = some l.gp) = []
    · rw [hms]
      simp only [List.flatMap_nil, List.isEmpty_nil, if_true]
      rw [List.flatMap_singleton]
      exact s2_filterMap_miss feeder_zip_map zg.zip zg.cz_groups zg.gp none none
    · have hne : ¬ ((load_month_hour.filter
          (fun l => zg.gp = some l.gp)).isEmpty = true) := by
        rw [List.isEmpty_iff]
        exact hms
      rw [if_neg hne, List.flatMap_map]
      apply flatMap_congr_mem
      intro lr hlr
      have hgp : zg.gp = some lr.gp := by
        have := List.mem_filter.mp hlr
        simpa using this.2
      rw [hgp]
      exact s2_filterMap_hit feeder_zip_map zg.zip zg.cz_groups lr.gp
        lr.month lr.hour lr.kwh
  · rw [if_neg hp]
    have hfs : feeder_zip_map.filter (fun fr => fr.zip = some zg.zip) = [] := by
      rw [List.filter_eq_nil_iff]
      intro fr hfr
      simp only [decide_eq_true_eq]
      intro hz
      apply hp
      exact List.elem_iff.mpr ((mem_firstDedup _ _).mpr
        (List.mem_map.mpr ⟨fr, hfr, hz⟩))
    symm
    rw [List.flatMap_eq_nil_iff]
    intro lr _
    rw [hfs]
    rfl

theorem triples_filter_eq (zip_gp : List ZipGpRow)
    (load_month_hour : List LoadMonthHourRow)
    (feeder_zip_map : List FeederZipRow)
    (f : String) (m h : Nat) (g : String) :
    ((build_triples zip_gp load_month_hour feeder_zip_map).filter (fun r =>
      r.feeder_id = f ∧ r.month = m ∧ r.hour = h ∧ r.gp = g)).map
      (fun r => r.kwh) =
    load_contributions zip_gp load_month_hour feeder_zip_map f m h g := by
  rw [build_triples, load_contributions]
  rw [List.filter_flatMap, List.map_flatMap]
  apply flatMap_congr_mem
  intro zg _
  rw [List.filter_flatMap, List.map_flatMap, filter_flatMap_left,
    filter_flatMap_left]
  apply flatMap_congr_mem
  intro lr _
  by_cases h1 : zg.gp = some lr.gp
  · have c1 : decide (zg.gp = some lr.gp) = true := by simp [h1]
    rw [if_pos c1]
    by_cases h2 : lr.month = m
    · by_cases h3 : lr.hour = h
      · by_cases h4 : lr.gp = g
        · have c2 : decide (zg.gp = some lr.gp ∧ lr.gp = g ∧ lr.month = m ∧
              lr.hour = h) = true := by simp [h1, h2, h3, h4]
          rw [if_pos c2]
          rw [List.filter_map, List.map_map, List.filter_filter]
          have hfl : feeder_zip_map.filter (fun a =>
              ((fun r : FgmhRow => decide (r.feeder_id = f ∧ r.month = m ∧
                  r.hour = h ∧ r.gp = g)) ∘ fun fr =>
                (⟨fr.feeder_id, lr.month, lr.hour, lr.gp,
                  lr.kwh⟩ : FgmhRow)) a && decide (a.zip = some zg.zip)) =
              feeder_zip_map.filter (fun fr =>
                decide (fr.zip = some zg.zip ∧ fr.feeder_id = f)) := by
            apply List.filter_congr
            intro fr _
            simp [h2, h3, h4, Bool.and_comm]
          rw [hfl]
          rfl
        · have c2 : decide (zg.gp = some lr.gp ∧ lr.gp = g ∧ lr.month = m ∧
              lr.hour = h) = false := by simp [h4]
          rw [if_neg (by rw [c2]; exact Bool.false_ne_true)]
          rw [List.filter_map]
          have hnil : (feeder_zip_map.filter
              (fun fr => fr.zip = some zg.zip)).filter
              ((fun r : FgmhRow => decide (r.feeder_id = f ∧ r.month = m ∧
                  r.hour = h ∧ r.gp = g)) ∘ fun fr =>
                (⟨fr.feeder_id, lr.month, lr.hour, lr.gp,
                  lr.kwh⟩ : FgmhRow)) = [] := by
            rw [List.filter_eq_nil_iff]
            intro fr _
            simp [h4]
          rw [hnil]
          rfl
      · have c2 : decide (zg.gp = some lr.gp ∧ lr.gp = g ∧ lr.month = m ∧
            lr.hour = h) = false := by simp [h3]
        rw [if_neg (by rw [c2]; exact Bool.false_ne_true)]
        rw [List.filter_map]
        have hnil : (feeder_zip_map.filter
            (fun fr => fr.zip = some zg.zip)).filter
            ((fun r : FgmhRow => decide (r.feeder_id = f ∧ r.month = m ∧
                r.hour = h ∧ r.gp = g)) ∘ fun fr =>
              (⟨fr.feeder_id, lr.month, lr.hour, lr.gp,
                lr.kwh⟩ : FgmhRow)) = [] := by
          rw [List.filter_eq_nil_iff]
          intro fr _
          simp [h3]
        rw [hnil]
        rfl
    · have c2 : decide (zg.gp = some lr.gp ∧ lr.gp = g ∧ lr.month = m ∧
          lr.hour = h) = false := by simp [h2]
      rw [if_neg (by rw [c2]; exact Bool.false_ne_true)]
      rw [List.filter_map]
      have hnil : (feeder_zip_map.filter
          (fun fr => fr.zip = some zg.zip)).filter
          ((fun r : FgmhRow => decide (r.feeder_id = f ∧ r.month = m ∧
              r.hour = h ∧ r.gp = g)) ∘ fun fr =>
            (⟨fr.feeder_id, lr.month, lr.hour, lr.gp,
              lr.kwh⟩ : FgmhRow)) = [] := by
        rw [List.filter_eq_nil_iff]
        intro fr _
        simp [h2]
      rw [hnil]
      rfl
  · have c1 : decide (zg.gp = some lr.gp) = false := by simp [h1]
    have c2 : decide (zg.gp = some lr.gp ∧ lr.gp = g ∧ lr.month = m ∧
        lr.hour = h) = false := by simp [h1]
    rw [if_neg (by rw [c1]; exact Bool.false_ne_true),
      if_neg (by rw [c2]; exact Bool.false_ne_true)]

theorem fgmh_filter_sum (group_in : List FgmhRow)
    (f : String) (m h : Nat) (g : String) :
    ((((groupByKey (fun r : FgmhRow => (r.feeder_id, r.month, r.hour, r.gp))
        group_in).map (fun gr => (⟨gr.1.1, gr.1.2.1, gr.1.2.2.1, gr.1.2.2.2,
        (gr.2.map (fun r => r.kwh)).sum⟩ : FgmhRow))).filter
      (fun r => r.feeder_id = f ∧ r.month = m ∧ r.hour = h ∧ r.gp = g)).map
      (fun r => r.kwh)).sum =
    ((group_in.filter (fun r =>
      r.feeder_id = f ∧ r.month = m ∧ r.hour = h ∧ r.gp = g)).map
      (fun r => r.kwh)).sum := by
  rw [List.filter_map]
  have hcomp : ((fun r : FgmhRow => decide (r.feeder_id = f ∧ r.month = m ∧
      r.hour = h ∧ r.gp = g)) ∘
      (fun gr : (String × Nat × Nat × String) × List FgmhRow =>
        (⟨gr.1.1, gr.1.2.1, gr.1.2.2.1, gr.1.2.2.2,
          (gr.2.map (fun r => r.kwh)).sum⟩ : FgmhRow))) =
      (fun gr : (String × Nat × Nat × String) × List FgmhRow =>
        decide (gr.1 = (f, m, h, g))) := by
    funext gr
    apply decide_eq_decide.mpr
    obtain ⟨⟨a, b, c, d⟩, lst⟩ := gr
    simp [Prod.mk.injEq]
  rw [hcomp, groupByKey_filter_key]
  have hgrp : group_in.filter (fun a =>
      (a.feeder_id, a.month, a.hour, a.gp) = (f, m, h, g)) =
      group_in.filter (fun r => r.feeder_id = f ∧ r.month = m ∧
        r.hour = h ∧ r.gp = g) := by
    apply List.filter_congr
    intro r _
    apply decide_eq_decide.mpr
    simp [Prod.mk.injEq]
  by_cases hK : (f, m, h, g) ∈ group_in.map
      (fun r => (r.feeder_id, r.month, r.hour, r.gp))
  · rw [if_pos hK]
    simp only [List.map_cons, List.map_nil, List.sum_cons, List.sum_nil,
      add_zero]
    rw [hgrp]
  · rw [if_neg hK]
    have hnil : group_in.filter (fun r => r.feeder_id = f ∧ r.month = m ∧
        r.hour = h ∧ r.gp = g) = [] := by
      rw [List.filter_eq_nil_iff]
      intro r hr
      simp only [decide_eq_true_eq]
      rintro ⟨e1, e2, e3, e4⟩
      exact hK (List.mem_map.mpr ⟨r, hr, by rw [e1, e2, e3, e4]⟩)
    rw [hnil]
    rfl

theorem mem_bf_keys_iff (zip_gp : List ZipGpRow)
    (load_month_hour : List LoadMonthHourRow)
    (feeder_zip_map : List FeederZipRow) (f : String) (m h : Nat) :
    (f, m, h) ∈ bf_keys zip_gp load_month_hour feeder_zip_map ↔
      ∃ g, load_contributions zip_gp load_month_hour feeder_zip_map
        f m h g ≠ [] := by
  rw [bf_keys, mem_firstDedup]
  constructor
  · intro hmem
    obtain ⟨row, hrow, hkey⟩ := List.mem_map.mp hmem
    rw [bf_fgmh] at hrow
    obtain ⟨kk, hkk, hmk⟩ := List.mem_map.mp hrow
    rw [groupByKey] at hkk
    obtain ⟨k0, hk0, hpair⟩ := List.mem_map.mp hkk
    rw [mem_firstDedup] at hk0
    obtain ⟨a, ha, hka⟩ := List.mem_map.mp hk0
    refine ⟨k0.2.2.2, ?_⟩
    rw [← triples_filter_eq]
    intro hnil
    rw [List.map_eq_nil_iff, List.filter_eq_nil_iff] at hnil
    apply hnil a
    · rw [← group_in_eq_triples]
      exact ha
    · have h1 : a.feeder_id = f := by
        have e1 : row.feeder_id = f := congrArg Prod.fst hkey
        rw [← hmk] at e1
        rw [← hpair] at e1
        have : a.feeder_id = k0.1 := congrArg Prod.fst hka
        rw [this]
        exact e1
      have h2 : a.month = m := by
        have e1 : row.month = m := congrArg (fun p => p.2.1) hkey
        rw [← hmk] at e1
        rw [← hpair] at e1
        have : a.month = k0.2.1 := congrArg (fun p => p.2.1) hka
        rw [this]
        exact e1
      have h3 : a.hour = h := by
        have e1 : row.hour = h := congrArg (fun p => p.2.2) hkey
        rw [← hmk] at e1
        rw [← hpair] at e1
        have : a.hour = k0.2.2.1 := congrArg (fun p => p.2.2.1) hka
        rw [this]
        exact e1
      have h4 : a.gp = k0.2.2.2 := congrArg (fun p => p.2.2.2) hka
      simp [h1, h2, h3, h4]
  · rintro ⟨g, hne⟩
    rw [← triples_filter_eq] at hne
    have hfil : (build_triples zip_gp load_month_hour feeder_zip_map).filter
        (fun r => r.feeder_id = f ∧ r.month = m ∧ r.hour = h ∧ r.gp = g) ≠
        [] := by
      intro hnil
      rw [hnil] at hne
      exact hne rfl
    obtain ⟨a, ha⟩ := List.exists_mem_of_ne_nil _ hfil
    have hmf := List.mem_filter.mp ha
    obtain ⟨hag, hcond⟩ := hmf
    simp only [decide_eq_true_eq] at hcond
    obtain ⟨e1, e2, e3, e4⟩ := hcond
    have hain : a ∈ bf_group_in zip_gp load_month_hour feeder_zip_map := by
      rw [group_in_eq_triples]
      exact hag
    have hkmem : (f, m, h, g) ∈
        (bf_group_in zip_gp load_month_hour feeder_zip_map).map
          (fun r => (r.feeder_id, r.month, r.hour, r.gp)) :=
      List.mem_map.mpr ⟨a, hain, by rw [e1, e2, e3, e4]⟩
    have hg2 := List.mem_map_of_mem (fun k =>
      (k, (bf_group_in zip_gp load_month_hour feeder_zip_map).filter
        (fun r => (r.feeder_id, r.month, r.hour, r.gp) = k)))
      ((mem_firstDedup _ _).mpr hkmem)
    have hrow := List.mem_map_of_mem
      (fun gr : (String × Nat × Nat × String) × List FgmhRow =>
        (⟨gr.1.1, gr.1.2.1, gr.1.2.2.1, gr.1.2.2.2,
          (gr.2.map (fun r => r.kwh)).sum⟩ : FgmhRow)) hg2
    exact List.mem_map.mpr ⟨_, hrow, rfl⟩

/-- C1 amended: the feature matrix has exactly one row per (feeder,
month, hour) combination reachable through the join chain (and such a
row exists exactly when some profile contributes), every row carries the
full numeric profile column set matching the header (no absent cells),
and each profile cell equals the sum of the aggregated kWh values over
all (zip_gp row, aggregated-load row, feeder-map row) join triples
contributing that profile to that feeder in that month-hour — 0.0 when
no triple contributes, and equal to the single aggregated seasonal mean
exactly when one triple does (a feeder reached through two ZIPs carrying
the same profile gets the doubled sum, not the mean). -/
theorem build_feeder_load_features_pivot_spec :
    ∀ (zip_gp : List ZipGpRow) (load_month_hour : List LoadMonthHourRow)
      (feeder_zip_map : List FeederZipRow),
      (((build_feeder_load_features zip_gp load_month_hour
          feeder_zip_map).rows.map
        (fun r => (r.feeder_id, r.month, r.hour))).Nodup) ∧
      (∀ r ∈ (build_feeder_load_features zip_gp load_month_hour
          feeder_zip_map).rows,
        r.cells.map Prod.fst =
          (build_feeder_load_features zip_gp load_month_hour
            feeder_zip_map).cols.drop 3) ∧
      (∀ r ∈ (build_feeder_load_features zip_gp load_month_hour
          feeder_zip_map).rows,
        ∀ cv ∈ r.cells, ∃ g : String, cv.1 = kwh_col g ∧
          cv.2 = (load_contributions zip_gp load_month_hour feeder_zip_map
            r.feeder_id r.month r.hour g).sum) ∧
      (∀ (f : String) (m h : Nat),
        (∃ r ∈ (build_feeder_load_features zip_gp load_month_hour
            feeder_zip_map).rows,
          r.feeder_id = f ∧ r.month = m ∧ r.hour = h) ↔
        (∃ g, load_contributions zip_gp load_month_hour feeder_zip_map
          f m h g ≠ [])) := by
  intro zgp lmh fzm
  refine ⟨?_, ?_, ?_, ?_⟩
  · have hkeys : ((build_feeder_load_features zgp lmh fzm).rows.map
        (fun r => (r.feeder_id, r.month, r.hour))) = bf_keys zgp lmh fzm := by
      rw [build_eq_staged]
      show (((bf_pre zgp lmh fzm).map _).map _) = _
      rw [List.map_map, bf_pre, List.map_map]
      exact Eq.trans (List.map_congr_left fun k _ => rfl) (List.map_id _)
    rw [hkeys, bf_keys]
    exact nodup_firstDedup _
  · intro r hr
    have hr2 : r ∈ (bf_pre zgp lmh fzm).map (fun r =>
        (⟨r.feeder_id, r.month, r.hour,
          r.cells.map (fun cv => (kwh_col cv.1, cv.2))⟩ : FeederWideRow)) := hr
    rw [bf_pre, List.map_map] at hr2
    obtain ⟨k, _, rfl⟩ := List.mem_map.mp hr2
    refine Eq.trans ?_ (List.drop_left ["feeder_id", "month", "hour"]
      ((bf_cols zgp lmh fzm).map kwh_col)).symm
    simp only [Function.comp_apply, List.map_map]
    exact List.map_congr_left fun g _ => rfl
  · intro r hr cv hcv
    have hr2 : r ∈ (bf_pre zgp lmh fzm).map (fun r =>
        (⟨r.feeder_id, r.month, r.hour,
          r.cells.map (fun cv => (kwh_col cv.1, cv.2))⟩ : FeederWideRow)) := hr
    rw [bf_pre, List.map_map] at hr2
    obtain ⟨k, _, rfl⟩ := List.mem_map.mp hr2
    simp only [Function.comp_apply, List.map_map] at hcv
    obtain ⟨g, _, hg⟩ := List.mem_map.mp hcv
    refine ⟨g, ?_, ?_⟩
    · rw [← hg]
      rfl
    · rw [← hg]
      show (((bf_fgmh zgp lmh fzm).filter (fun r2 =>
        r2.feeder_id = k.1 ∧ r2.month = k.2.1 ∧ r2.hour = k.2.2 ∧
          r2.gp = g)).map (fun r2 => r2.kwh)).sum = _
      calc (((bf_fgmh zgp lmh fzm).filter (fun r2 =>
            r2.feeder_id = k.1 ∧ r2.month = k.2.1 ∧ r2.hour = k.2.2 ∧
              r2.gp = g)).map (fun r2 => r2.kwh)).sum
          = (((bf_group_in zgp lmh fzm).filter (fun r2 =>
            r2.feeder_id = k.1 ∧ r2.month = k.2.1 ∧ r2.hour = k.2.2 ∧
              r2.gp = g)).map (fun r2 => r2.kwh)).sum :=
            fgmh_filter_sum (bf_group_in zgp lmh fzm) k.1 k.2.1 k.2.2 g
        _ = (((build_triples zgp lmh fzm).filter (fun r2 =>
            r2.feeder_id = k.1 ∧ r2.month = k.2.1 ∧ r2.hour = k.2.2 ∧
              r2.gp = g)).map (fun r2 => r2.kwh)).sum := by
            rw [group_in_eq_triples]
        _ = (load_contributions zgp lmh fzm k.1 k.2.1 k.2.2 g).sum :=
            congrArg List.sum (triples_filter_eq zgp lmh fzm k.1 k.2.1 k.2.2 g)
  · intro f m h
    constructor
    · rintro ⟨r, hr, e1, e2, e3⟩
      have hr2 : r ∈ (bf_pre zgp lmh fzm).map (fun r =>
          (⟨r.feeder_id, r.month, r.hour,
            r.cells.map (fun cv => (kwh_col cv.1, cv.2))⟩ : FeederWideRow)) := hr
      rw [bf_pre, List.map_map] at hr2
      obtain ⟨k, hk, rfl⟩ := List.mem_map.mp hr2
      rw [← mem_bf_keys_iff]
      have : k = (f, m, h) := by
        obtain ⟨a, b, c⟩ := k
        have e1b : a = f := e1
        have e2b : b = m := e2
        have e3b : c = h := e3
        rw [e1b, e2b, e3b]
      rw [← this]
      exact hk
    · intro hex
      rw [← mem_bf_keys_iff zgp lmh fzm f m h] at hex
      have hrow := List.mem_map_of_mem (fun k : String × Nat × Nat =>
        (⟨k.1, k.2.1, k.2.2, (bf_cols zgp lmh fzm).map (fun g => (g,
          (((bf_fgmh zgp lmh fzm).filter (fun r =>
            r.feeder_id = k.1 ∧ r.month = k.2.1 ∧ r.hour = k.2.2 ∧
              r.gp = g)).map (fun r => r.kwh)).sum))⟩ : FeederWideRow)) hex
      have hrow2 := List.mem_map_of_mem (fun r : FeederWideRow =>
        (⟨r.feeder_id, r.month, r.hour,
          r.cells.map (fun cv => (kwh_col cv.1, cv.2))⟩ : FeederWideRow)) hrow
      exact ⟨_, hrow2, rfl, rfl, rfl⟩

/-- Witness for C1's amended theorem at a one-triple input: the single
row matches the header, its cell is the contribution sum, and the key
(F, 5, 0) is reachable. -/
theorem build_feeder_load_features_pivot_spec_witness :
    ((⟨"F", 5, 0, [("kwh_P", 2)]⟩ : FeederWideRow).cells.map Prod.fst =
      (build_feeder_load_features c1w_zip_gp c1w_lmh c1w_fzm).cols.drop 3) ∧
    (∃ g, ("kwh_P", (2 : ℚ)).1 = kwh_col g ∧
      ("kwh_P", (2 : ℚ)).2 = (load_contributions c1w_zip_gp c1w_lmh c1w_fzm
        "F" 5 0 g).sum) ∧
    (∃ r ∈ (build_feeder_load_features c1w_zip_gp c1w_lmh c1w_fzm).rows,
      r.feeder_id = "F" ∧ r.month = 5 ∧ r.hour = 0) := by
  have hspec := build_feeder_load_features_pivot_spec c1w_zip_gp c1w_lmh c1w_fzm
  have hrows : (build_feeder_load_features c1w_zip_gp c1w_lmh c1w_fzm).rows =
      [⟨"F", 5, 0, [("kwh_P", 2)]⟩] := by
    simp [build_feeder_load_features, c1w_zip_gp, c1w_lmh, c1w_fzm,
      groupByKey, firstDedup, firstDedupAux, kwh_col]
  have hmem : (⟨"F", 5, 0, [("kwh_P", 2)]⟩ : FeederWideRow) ∈
      (build_feeder_load_features c1w_zip_gp c1w_lmh c1w_fzm).rows := by
    rw [hrows]
    exact List.mem_cons_self _ _
  refine ⟨hspec.2.1 _ hmem, ?_, ?_⟩
  · exact hspec.2.2.1 _ hmem ("kwh_P", (2 : ℚ)) (List.mem_cons_self _ _)
  · exact (hspec.2.2.2 "F" 5 0).mpr ⟨"P", by decide⟩

/-- Counterexample to C1 as stated: a feeder assigned two ZIPs that both
carry profile P.  The aggregated table holds the seasonal mean 0.15 for
(P, May, hour 0), but the output cell kwh_P is 0.30 — the sum over both
contributing join rows — not the aggregated mean claimed. -/
theorem build_double_count :
    (build_feeder_load_features
        [⟨111, some "Coastal", some "P"⟩, ⟨222, some "Coastal", some "P"⟩]
        [⟨"P", 5, 0, 3/20⟩]
        [⟨"F", some 111⟩, ⟨"F", some 222⟩]).rows =
      [⟨"F", 5, 0, [("kwh_P", 3/10)]⟩] ∧
    ¬ ((3 / 10 : ℚ) = 3 / 20) := by
  constructor
  · simp [build_feeder_load_features, groupByKey, firstDedup, firstDedupAux,
      kwh_col]
    norm_num
  · norm_num
